import Mathlib

/-!
# Verification of the PMU proxy monitoring pipeline

Shallow embedding of the core of the `pmu_proxy` repository:
the two-layer warning engine (`warning_system.py`), the FFT analyzer
window selection (`analysis/fft_analyzer.py`), the oscillation detector
(`analysis/oscillation_detector.py`) and the fault detector
(`analysis/fault_detector.py`), together with theorems settling the
spec claims about them.

Real values and timestamps are modelled as rationals (`ℚ`); a Python
`datetime` is represented by its Unix time in seconds, so that
`(a - b).total_seconds()` becomes the rational difference `a - b`.
Python dictionaries keyed by signal id are modelled as association
lists.  Quantities that genuinely require transcendental functions
(the damping estimate's `log`/`sqrt`) live in `ℝ`.
-/

/-- `WarningSeverity` enum of `warning_system.py` (INFO=0, WARNING=1, CRITICAL=2). -/
inductive WarningSeverity where
  | info
  | warning
  | critical
  deriving DecidableEq

/-- `WarningState` enum of `warning_system.py`. -/
inductive WarningState where
  | active
  | recovered
  | acknowledged
  deriving DecidableEq

/-- `ThresholdConfig` dataclass of `warning_system.py` (defaults as in the source). -/
structure ThresholdConfig where
  signal_id : String
  signal_type : String
  warning_min : Option ℚ := none
  warning_max : Option ℚ := none
  critical_min : Option ℚ := none
  critical_max : Option ℚ := none
  trigger_count : ℕ := 3
  trigger_window : ℚ := 5
  recovery_count : ℕ := 2
  recovery_window : ℚ := 3
  min_event_duration : ℚ := 1
  deriving DecidableEq

/-- The violation dictionary returned by `RealTimeWarningLayer._check_threshold`:
keys `severity`, `type` (the string `"min"` or `"max"`), `threshold`, `deviation`. -/
structure Violation where
  severity : WarningSeverity
  type : String
  threshold : ℚ
  deviation : ℚ
  deriving DecidableEq

/-- Last of the four sequential bound checks of `_check_threshold`
(`warning_system.py` lines 241-249): the `warning_max` check. -/
def check_warning_max (value : ℚ) (config : ThresholdConfig) : Option Violation :=
  match config.warning_max with
  | some m =>
      if value > m then some ⟨WarningSeverity.warning, "max", m, value - m⟩ else none
  | none => none

/-- The `warning_min` check of `_check_threshold` (lines 233-239), falling
through to the `warning_max` check. -/
def check_warning_min (value : ℚ) (config : ThresholdConfig) : Option Violation :=
  match config.warning_min with
  | some m =>
      if value < m then some ⟨WarningSeverity.warning, "min", m, m - value⟩
      else check_warning_max value config
  | none => check_warning_max value config

/-- The `critical_max` check of `_check_threshold` (lines 224-230), falling
through to the warning checks. -/
def check_critical_max (value : ℚ) (config : ThresholdConfig) : Option Violation :=
  match config.critical_max with
  | some m =>
      if value > m then some ⟨WarningSeverity.critical, "max", m, value - m⟩
      else check_warning_min value config
  | none => check_warning_min value config

/-- `RealTimeWarningLayer._check_threshold` (`warning_system.py` lines 208-249):
the four bounds are tested in source order `critical_min`, `critical_max`,
`warning_min`, `warning_max`, and the first violated bound is reported. -/
def check_threshold (value : ℚ) (config : ThresholdConfig) : Option Violation :=
  match config.critical_min with
  | some m =>
      if value < m then some ⟨WarningSeverity.critical, "min", m, m - value⟩
      else check_critical_max value config
  | none => check_critical_max value config

/-- `value` crosses one of the two CRITICAL bounds of `config`. -/
def crit_violated (value : ℚ) (config : ThresholdConfig) : Bool :=
  (match config.critical_min with
   | some m => decide (value < m)
   | none => false) ||
  (match config.critical_max with
   | some m => decide (m < value)
   | none => false)

/-- C3 counterexample: with `critical_min = 10`, `critical_max = 0` and
`value = 9` both critical bounds are violated; the max-bound deviation
(`9 - 0 = 9`) is strictly larger than the min-bound deviation
(`10 - 9 = 1`), yet `_check_threshold` reports the `min` bound, because
it tests `critical_min` first and never compares deviations. -/
theorem c3_counterexample :
    check_threshold 9
        { signal_id := "s", signal_type := "voltage",
          critical_min := some 10, critical_max := some 0 } =
      some ⟨WarningSeverity.critical, "min", 10, 1⟩ ∧
    (10 : ℚ) - 9 < 9 - 0 := by
  constructor
  · norm_num [check_threshold]
  · norm_num

/-- C3 (amended): CRITICAL bounds do take precedence over WARNING bounds,
but within a severity the `min` bound takes precedence over the `max`
bound unconditionally (the bounds are tested in the order `critical_min`,
`critical_max`, `warning_min`, `warning_max`), not by larger deviation:
(1) whenever a critical bound is crossed the reported severity is CRITICAL;
(2) a violated `critical_min` is reported as the `min` bound even when
`critical_max` is also violated with a larger deviation;
(3) when no critical bound is crossed, a violated `warning_min` is
likewise reported as the `min` bound. -/
theorem c3_check_threshold_amended (value : ℚ) (config : ThresholdConfig) :
    (crit_violated value config = true →
      ∃ v, check_threshold value config = some v ∧
        v.severity = WarningSeverity.critical) ∧
    (∀ m, config.critical_min = some m → value < m →
      check_threshold value config =
        some ⟨WarningSeverity.critical, "min", m, m - value⟩) ∧
    (crit_violated value config = false →
      ∀ m, config.warning_min = some m → value < m →
      check_threshold value config =
        some ⟨WarningSeverity.warning, "min", m, m - value⟩) := by
  refine ⟨?_, ?_, ?_⟩
  · intro hcrit
    unfold crit_violated at hcrit
    unfold check_threshold check_critical_max
    rcases hmin : config.critical_min with _ | m
    · rcases hmax : config.critical_max with _ | M
      · simp [hmin, hmax] at hcrit
      · simp only [hmin, hmax, Bool.or_eq_true, decide_eq_true_eq] at hcrit
        have hMv : M < value := by
          rcases hcrit with h | h
          · exact absurd h (by simp)
          · exact h
        simp [if_pos hMv]
    · by_cases hvm : value < m
      · simp [if_pos hvm]
      · simp only [hmin, Bool.or_eq_true, decide_eq_true_eq] at hcrit
        rcases hcrit with h | h
        · exact absurd h hvm
        · rcases hmax : config.critical_max with _ | M
          · rw [hmax] at h; simp at h
          · rw [hmax] at h
            simp at h
            simp [if_neg hvm, hmax, if_pos h]
  · intro m hm hv
    unfold check_threshold
    rw [hm]
    simp [if_pos hv]
  · intro hcrit m hm hv
    unfold crit_violated at hcrit
    simp only [Bool.or_eq_false_iff] at hcrit
    obtain ⟨h1, h2⟩ := hcrit
    unfold check_threshold check_critical_max check_warning_min
    rcases hcmin : config.critical_min with _ | cm
    · rcases hcmax : config.critical_max with _ | cM
      · rw [hm]; simp [if_pos hv]
      · rw [hcmax] at h2
        simp only [decide_eq_false_iff_not, not_lt] at h2
        rw [hm]
        simp [if_neg (not_lt.mpr h2), if_pos hv]
    · rw [hcmin] at h1
      simp only [decide_eq_false_iff_not, not_lt] at h1
      rcases hcmax : config.critical_max with _ | cM
      · rw [hm]
        simp [if_neg (not_lt.mpr h1), if_pos hv]
      · rw [hcmax] at h2
        simp only [decide_eq_false_iff_not, not_lt] at h2
        rw [hm]
        simp [if_neg (not_lt.mpr h1), if_neg (not_lt.mpr h2), if_pos hv]

/-- `WarningSeverity(...).name` as used by `_generate_message`. -/
def severity_name : WarningSeverity → String
  | WarningSeverity.info => "INFO"
  | WarningSeverity.warning => "WARNING"
  | WarningSeverity.critical => "CRITICAL"

/-- Banker's rounding of a rational to an integer, as Python's float
formatting applies at the last kept digit. -/
def round_half_even (q : ℚ) : ℤ :=
  let f := ⌊q⌋
  let r := q - f
  if r < 1/2 then f
  else if 1/2 < r then f + 1
  else if f % 2 = 0 then f else f + 1

/-- Python fixed-point formatting `{x:.df}` on our rational model of floats:
round half to even at `d` decimal places and print sign, integer part and
`d` zero-padded fractional digits. -/
def fmt_fixed (digits : ℕ) (q : ℚ) : String :=
  let scaled := round_half_even (|q| * (10 : ℚ) ^ digits)
  let ip := scaled / (10 : ℤ) ^ digits
  let fp := scaled % (10 : ℤ) ^ digits
  let fpStr := toString fp.toNat
  let pad := String.mk (List.replicate (digits - fpStr.length) '0')
  (if q < 0 then "-" else "") ++ toString ip ++ "." ++ pad ++ fpStr

/-- `RealTimeWarningLayer._generate_message` (`warning_system.py` lines
366-376).  The interpolation of the raw threshold float is modelled with
`toString` on the rational; the `.2f` deviation with `fmt_fixed 2`. -/
def generate_message (config : ThresholdConfig) (violation : Violation) : String :=
  if violation.type = "min" then
    severity_name violation.severity ++ ": " ++ config.signal_type ++ " below " ++
      toString violation.threshold ++ " (deviation: -" ++
      fmt_fixed 2 violation.deviation ++ ")"
  else
    severity_name violation.severity ++ ": " ++ config.signal_type ++ " above " ++
      toString violation.threshold ++ " (deviation: +" ++
      fmt_fixed 2 violation.deviation ++ ")"

/-- `WarningEvent` dataclass of `warning_system.py`.  `datetime` fields are
Unix seconds in `ℚ`. -/
structure WarningEvent where
  event_id : String
  signal_id : String
  signal_type : String
  severity : WarningSeverity
  state : WarningState
  threshold_type : String
  threshold_value : ℚ
  trigger_value : ℚ
  first_trigger_time : ℚ
  event_start_time : Option ℚ := none
  event_end_time : Option ℚ := none
  duration : Option ℚ := none
  trigger_count : ℕ := 0
  max_deviation : ℚ := 0
  values_during_event : List ℚ := []
  message : String := ""
  acknowledged : Bool := false
  acknowledged_by : Option String := none
  acknowledged_at : Option ℚ := none
  deriving DecidableEq

/-- One entry `(timestamp, value, violation)` of a trigger-history deque. -/
structure TrigEntry where
  ts : ℚ
  value : ℚ
  viol : Violation
  deriving DecidableEq

/-- One entry `(timestamp, value)` of a recovery-history deque. -/
structure RecEntry where
  ts : ℚ
  value : ℚ
  deriving DecidableEq

/-- The mutable state of `RealTimeWarningLayer`: the dictionaries
`trigger_history`, `recovery_history` and `active_events`, modelled as
association lists keyed by signal id.  (The performance counters
`check_count` / `total_check_time` are timing metrics outside the data
model.) -/
structure WarnState where
  trigger_history : List (String × List TrigEntry)
  recovery_history : List (String × List RecEntry)
  active_events : List (String × WarningEvent)
  deriving DecidableEq

/-- Dictionary lookup `d.get(k)` on an association list. -/
def alookup {α : Type} (l : List (String × α)) (k : String) : Option α :=
  (List.find? (fun p => p.1 == k) l).map (fun p => p.2)

/-- Dictionary update `d[k] = v`: overwrite in place, or append a new binding. -/
def aset {α : Type} : List (String × α) → String → α → List (String × α)
  | [], k, v => [(k, v)]
  | (k', v') :: rest, k, v =>
      if k' == k then (k, v) :: rest else (k', v') :: aset rest k v

/-- Dictionary deletion `del d[k]`. -/
def aerase {α : Type} : List (String × α) → String → List (String × α)
  | [], _ => []
  | (k', v') :: rest, k => if k' == k then rest else (k', v') :: aerase rest k

/-- `deque(maxlen=n).append(x)`: append on the right, evicting from the left
when the deque is full. -/
def deque_append {α : Type} (maxlen : ℕ) (xs : List α) (x : α) : List α :=
  let ys := xs ++ [x]
  ys.drop (ys.length - maxlen)

/-- Python `max()` over a nonempty sequence of rationals (`0` junk value on
`[]`, where the source would raise `ValueError`). -/
def list_max_rat : List ℚ → ℚ
  | [] => 0
  | x :: xs => xs.foldl max x

/-- Python `int()` truncation toward zero of a (rational-modelled) float,
as applied by `int(first_viol[0].timestamp())`. -/
def int_trunc (q : ℚ) : ℤ := if q < 0 then -⌊-q⌋ else ⌊q⌋

/-- The `WarningEvent(...)` constructed in the new-event branch of
`_evaluate_trigger` (`warning_system.py` lines 287-309), with the
qualifying violations `recent_violations` passed as the nonempty list
`first :: rest`. -/
def new_trigger_event (signal_id : String) (config : ThresholdConfig)
    (current_time : ℚ) (first : TrigEntry) (rest : List TrigEntry) :
    WarningEvent :=
  let recent := first :: rest
  let latest := recent.getLast (List.cons_ne_nil _ _)
  { event_id := signal_id ++ "_" ++ toString (int_trunc first.ts),
    signal_id := signal_id,
    signal_type := config.signal_type,
    severity := latest.viol.severity,
    state := WarningState.active,
    threshold_type := latest.viol.type,
    threshold_value := latest.viol.threshold,
    trigger_value := latest.value,
    first_trigger_time := first.ts,
    event_start_time := some current_time,
    trigger_count := recent.length,
    max_deviation := list_max_rat (recent.map (fun e => e.viol.deviation)),
    values_during_event := recent.map (fun e => e.value),
    message := generate_message config latest.viol }

/-- `RealTimeWarningLayer._evaluate_trigger` (`warning_system.py` lines
251-318), acting on the layer state and returning the optional
state-change event together with the successor state.  The two branches
returning `(none, st)` under a `none`/`[]` pattern are unreachable for
`trigger_count ≥ 1` (there the source would raise `IndexError` on
`recent_violations[0]`, which only happens for a degenerate
`trigger_count = 0` configuration). -/
def evaluate_trigger (st : WarnState) (signal_id : String)
    (config : ThresholdConfig) (current_time : ℚ) :
    Option WarningEvent × WarnState :=
  let history := (alookup st.trigger_history signal_id).getD []
  if history.length < config.trigger_count then (none, st)
  else
    let recent := history.filter
      (fun e => current_time - e.ts ≤ config.trigger_window)
    if recent.length < config.trigger_count then (none, st)
    else
      match alookup st.active_events signal_id with
      | some event =>
          match recent.getLast? with
          | some latest =>
              let event' := { event with
                trigger_count := event.trigger_count + 1,
                max_deviation :=
                  if latest.viol.deviation > event.max_deviation then
                    latest.viol.deviation
                  else event.max_deviation,
                values_during_event :=
                  event.values_during_event ++ [latest.value] }
              (none, { st with
                active_events := aset st.active_events signal_id event' })
          | none => (none, st)
      | none =>
          match recent with
          | [] => (none, st)
          | first :: rest =>
              let event := new_trigger_event signal_id config current_time
                first rest
              (some event, { st with
                active_events := aset st.active_events signal_id event })

/-- `RealTimeWarningLayer._evaluate_recovery` (`warning_system.py` lines
320-364).  The `none` branch of the active-event lookup is unreachable
from `check_value`, which only calls this when the signal has an active
event (the source would raise `KeyError` there).  `event_start_time` is
always set on active events; `.getD 0` models the source's unguarded use
of it. -/
def evaluate_recovery (st : WarnState) (signal_id : String)
    (config : ThresholdConfig) (current_time : ℚ) :
    Option WarningEvent × WarnState :=
  let history := (alookup st.recovery_history signal_id).getD []
  if history.length < config.recovery_count then (none, st)
  else
    let recent := history.filter
      (fun e => current_time - e.ts ≤ config.recovery_window)
    if recent.length < config.recovery_count then (none, st)
    else
      match alookup st.active_events signal_id with
      | none => (none, st)
      | some event =>
          let duration := current_time - event.event_start_time.getD 0
          if duration < config.min_event_duration then
            (none, { st with
              active_events := aerase st.active_events signal_id,
              trigger_history := aset st.trigger_history signal_id [] })
          else
            let event' := { event with
              event_end_time := some current_time,
              duration := some duration,
              state := WarningState.recovered,
              message := event.message ++ " | Recovered after " ++
                fmt_fixed 1 duration ++ "s" }
            (some event', { st with
              active_events := aerase st.active_events signal_id,
              trigger_history := aset st.trigger_history signal_id [],
              recovery_history := aset st.recovery_history signal_id [] })

/-- The constructor expression `{t.signal_id: t for t in thresholds}` of
`RealTimeWarningLayer.__init__`: later configs with the same signal id
overwrite earlier ones. -/
def thresholds_map (thresholds : List ThresholdConfig) :
    List (String × ThresholdConfig) :=
  thresholds.foldl (fun m t => aset m t.signal_id t) []

/-- `RealTimeWarningLayer.check_value` (`warning_system.py` lines 137-206):
threshold lookup, lazy history initialization, violation classification,
then the trigger / recovery evaluation, returning the optional state-change
event and the successor state. -/
def check_value (thresholds : List (String × ThresholdConfig))
    (st : WarnState) (signal_id : String) (value : ℚ) (timestamp : ℚ) :
    Option WarningEvent × WarnState :=
  match alookup thresholds signal_id with
  | none => (none, st)
  | some config =>
      let st₁ :=
        if (alookup st.trigger_history signal_id).isNone then
          { st with
            trigger_history := aset st.trigger_history signal_id [],
            recovery_history := aset st.recovery_history signal_id [] }
        else st
      match check_threshold value config with
      | some violation =>
          let st₂ := { st₁ with
            trigger_history := aset st₁.trigger_history signal_id
              (deque_append 100
                ((alookup st₁.trigger_history signal_id).getD [])
                ⟨timestamp, value, violation⟩),
            recovery_history := aset st₁.recovery_history signal_id [] }
          evaluate_trigger st₂ signal_id config timestamp
      | none =>
          let st₂ := { st₁ with
            recovery_history := aset st₁.recovery_history signal_id
              (deque_append 100
                ((alookup st₁.recovery_history signal_id).getD [])
                ⟨timestamp, value⟩) }
          if (alookup st₂.active_events signal_id).isSome then
            evaluate_recovery st₂ signal_id config timestamp
          else (none, st₂)

/-- C9: a `check_value` call whose signal id has no threshold config
returns no event and leaves the whole warning-engine state (trigger
histories, recovery histories, active events) unchanged. -/
theorem c9_check_value_unknown_signal
    (thresholds : List (String × ThresholdConfig)) (st : WarnState)
    (signal_id : String) (value timestamp : ℚ)
    (h : alookup thresholds signal_id = none) :
    check_value thresholds st signal_id value timestamp = (none, st) := by
  unfold check_value
  rw [h]

/-- Witness for C9: an empty threshold table knows no signal. -/
theorem c9_check_value_unknown_signal_witness :
    alookup ([] : List (String × ThresholdConfig)) "PMU_frequency" = none ∧
    check_value [] ⟨[], [], []⟩ "PMU_frequency" 1 0 = (none, ⟨[], [], []⟩) :=
  ⟨rfl, c9_check_value_unknown_signal [] ⟨[], [], []⟩ "PMU_frequency" 1 0 rfl⟩

/-- C2: whenever `_evaluate_recovery` returns an event, that event is
RECOVERED, carries `event_end_time = now` and
`duration = now - event_start_time ≥ min_event_duration`, and the
recovery fired only because the recovery history held at least
`recovery_count` entries within `recovery_window` of `now`; an active
event whose elapsed duration is below `min_event_duration` is never
returned as RECOVERED (the short-duration branch yields no event). -/
theorem c2_recovered_duration (st : WarnState) (signal_id : String)
    (config : ThresholdConfig) (now : ℚ) (ev : WarningEvent)
    (h : (evaluate_recovery st signal_id config now).1 = some ev) :
    ev.state = WarningState.recovered ∧
    (∃ ev₀, alookup st.active_events signal_id = some ev₀ ∧
      ev.duration = some (now - ev₀.event_start_time.getD 0) ∧
      ev.event_end_time = some now ∧
      config.min_event_duration ≤ now - ev₀.event_start_time.getD 0) ∧
    config.recovery_count ≤
      (((alookup st.recovery_history signal_id).getD []).filter
        (fun e => now - e.ts ≤ config.recovery_window)).length := by
  simp only [evaluate_recovery] at h
  split at h
  · exact absurd h (by simp)
  · split at h
    · exact absurd h (by simp)
    · split at h
      · exact absurd h (by simp)
      · split at h
        · exact absurd h (by simp)
        · rename_i h1 h2 xopt ev₀ heq h3
          dsimp only at h
          rw [Option.some.injEq] at h
          subst h
          exact ⟨rfl, ⟨ev₀, heq, rfl, rfl, not_lt.mp h3⟩, not_lt.mp h2⟩

/-- A concrete active event used by the recovery witnesses: triggered at
time `0`, still ACTIVE. -/
def sample_event : WarningEvent :=
  { event_id := "s_0", signal_id := "s", signal_type := "frequency",
    severity := WarningSeverity.warning, state := WarningState.active,
    threshold_type := "max", threshold_value := 1, trigger_value := 2,
    first_trigger_time := 0, event_start_time := some 0 }

/-- Witness for C2: one qualifying normal reading at `now = 5` recovers
`sample_event` (duration `5 ≥ min_event_duration 1`). -/
theorem c2_recovered_duration_witness :
    (evaluate_recovery
        ⟨[("s", [])], [("s", [⟨5, 0⟩])], [("s", sample_event)]⟩ "s"
        { signal_id := "s", signal_type := "frequency",
          recovery_count := 1, recovery_window := 3,
          min_event_duration := 1 } 5).1 =
      some { sample_event with
        event_end_time := some 5, duration := some 5,
        state := WarningState.recovered,
        message := sample_event.message ++ " | Recovered after " ++
          fmt_fixed 1 5 ++ "s" } ∧
    ({ sample_event with
        event_end_time := some 5, duration := some 5,
        state := WarningState.recovered,
        message := sample_event.message ++ " | Recovered after " ++
          fmt_fixed 1 5 ++ "s" } : WarningEvent).state =
      WarningState.recovered :=
  have h : (evaluate_recovery
      ⟨[("s", [])], [("s", [⟨5, 0⟩])], [("s", sample_event)]⟩ "s"
      { signal_id := "s", signal_type := "frequency",
        recovery_count := 1, recovery_window := 3,
        min_event_duration := 1 } 5).1 =
      some { sample_event with
        event_end_time := some 5, duration := some 5,
        state := WarningState.recovered,
        message := sample_event.message ++ " | Recovered after " ++
          fmt_fixed 1 5 ++ "s" } := by
    norm_num [evaluate_recovery, alookup, List.find?, List.filter, sample_event]
  ⟨h, (c2_recovered_duration _ _ _ _ _ h).1⟩

/-- Looking up a key right after setting it yields the new value. -/
theorem alookup_aset_self {α : Type} (l : List (String × α)) (k : String)
    (v : α) : alookup (aset l k v) k = some v := by
  induction l with
  | nil => simp [aset, alookup, List.find?]
  | cons p rest ih =>
      rcases p with ⟨k', v'⟩
      by_cases hk : (k' == k) = true
      · simp [aset, hk, alookup, List.find?]
      · simp only [aset, Bool.not_eq_true] at hk
        simp only [aset, hk]
        simpa [alookup, List.find?, hk] using ih

/-- C4 counterexample: recovery conditions met (`1` normal reading inside
the window) while the event duration `2` is below `min_event_duration
= 10`.  The event is discarded (no event returned, removed from the
active set, trigger history cleared) but — contrary to the claim — the
recovery history of the signal is NOT cleared: it still holds its entry. -/
theorem c4_counterexample :
    (evaluate_recovery
        ⟨[("s", [⟨0, 5, ⟨WarningSeverity.warning, "max", 1, 4⟩⟩])],
         [("s", [⟨2, 0⟩])], [("s", sample_event)]⟩ "s"
        { signal_id := "s", signal_type := "frequency",
          recovery_count := 1, recovery_window := 3,
          min_event_duration := 10 } 2).1 = none ∧
    alookup (evaluate_recovery
        ⟨[("s", [⟨0, 5, ⟨WarningSeverity.warning, "max", 1, 4⟩⟩])],
         [("s", [⟨2, 0⟩])], [("s", sample_event)]⟩ "s"
        { signal_id := "s", signal_type := "frequency",
          recovery_count := 1, recovery_window := 3,
          min_event_duration := 10 } 2).2.active_events "s" = none ∧
    alookup (evaluate_recovery
        ⟨[("s", [⟨0, 5, ⟨WarningSeverity.warning, "max", 1, 4⟩⟩])],
         [("s", [⟨2, 0⟩])], [("s", sample_event)]⟩ "s"
        { signal_id := "s", signal_type := "frequency",
          recovery_count := 1, recovery_window := 3,
          min_event_duration := 10 } 2).2.trigger_history "s" = some [] ∧
    alookup (evaluate_recovery
        ⟨[("s", [⟨0, 5, ⟨WarningSeverity.warning, "max", 1, 4⟩⟩])],
         [("s", [⟨2, 0⟩])], [("s", sample_event)]⟩ "s"
        { signal_id := "s", signal_type := "frequency",
          recovery_count := 1, recovery_window := 3,
          min_event_duration := 10 } 2).2.recovery_history "s" =
      some [⟨2, 0⟩] ∧
    ([(⟨2, 0⟩ : RecEntry)] : List RecEntry) ≠ [] := by
  refine ⟨?_, ?_, ?_, ?_, by simp⟩ <;>
    norm_num [evaluate_recovery, alookup, aset, aerase, List.find?,
      List.filter, sample_event]

/-- C4 (amended): when the recovery conditions are met but the event's
duration is below `min_event_duration`, the event is discarded silently:
it is removed from the active set, the TRIGGER history of the signal is
cleared, the call returns no event — and the RECOVERY history of the
signal is left untouched (the source clears it only on a successful
recovery, `warning_system.py` line 359, not in the discard branch,
lines 345-349). -/
theorem c4_discard_amended (st : WarnState) (sid : String)
    (config : ThresholdConfig) (now : ℚ) (ev₀ : WarningEvent)
    (hact : alookup st.active_events sid = some ev₀)
    (hcnt : config.recovery_count ≤
      (((alookup st.recovery_history sid).getD []).filter
        (fun e => now - e.ts ≤ config.recovery_window)).length)
    (hdur : now - ev₀.event_start_time.getD 0 < config.min_event_duration) :
    evaluate_recovery st sid config now =
      (none, { st with
        active_events := aerase st.active_events sid,
        trigger_history := aset st.trigger_history sid [] }) := by
  have hflt := List.length_filter_le
    (fun e => now - e.ts ≤ config.recovery_window)
    ((alookup st.recovery_history sid).getD [])
  have h1 : ¬ ((alookup st.recovery_history sid).getD []).length <
      config.recovery_count := by omega
  simp only [evaluate_recovery]
  rw [if_neg h1, if_neg (not_lt.mpr hcnt), hact]
  dsimp only
  rw [if_pos hdur]

/-- Witness for the amended C4 theorem: the discard scenario of the C4
counterexample, with all three hypotheses discharged concretely. -/
theorem c4_discard_amended_witness :
    alookup ([("s", sample_event)]) "s" = some sample_event ∧
    (1 : ℕ) ≤ (([(⟨2, 0⟩ : RecEntry)] : List RecEntry).filter
      (fun e => (2 : ℚ) - e.ts ≤ 3)).length ∧
    (2 : ℚ) - sample_event.event_start_time.getD 0 < 10 ∧
    evaluate_recovery
        ⟨[("s", [⟨0, 5, ⟨WarningSeverity.warning, "max", 1, 4⟩⟩])],
         [("s", [⟨2, 0⟩])], [("s", sample_event)]⟩ "s"
        { signal_id := "s", signal_type := "frequency",
          recovery_count := 1, recovery_window := 3,
          min_event_duration := 10 } 2 =
      (none,
       { trigger_history := aset [("s",
           [⟨0, 5, ⟨WarningSeverity.warning, "max", 1, 4⟩⟩])] "s" [],
         recovery_history := [("s", [⟨2, 0⟩])],
         active_events := aerase [("s", sample_event)] "s" }) := by
  refine ⟨by simp [alookup, List.find?], ?_, ?_, ?_⟩
  · norm_num [List.filter]
  · norm_num [sample_event]
  · exact c4_discard_amended
      ⟨[("s", [⟨0, 5, ⟨WarningSeverity.warning, "max", 1, 4⟩⟩])],
       [("s", [⟨2, 0⟩])], [("s", sample_event)]⟩ "s"
      { signal_id := "s", signal_type := "frequency",
        recovery_count := 1, recovery_window := 3,
        min_event_duration := 10 } 2 sample_event
      (by simp [alookup, List.find?])
      (by norm_num [alookup, List.find?, List.filter])
      (by norm_num [sample_event])

/-- In the new-event branch (no active event, enough qualifying
violations), `_evaluate_trigger` returns exactly the freshly constructed
event and inserts it into the active set. -/
theorem evaluate_trigger_creates (st : WarnState) (sid : String)
    (config : ThresholdConfig) (now : ℚ) (first : TrigEntry)
    (rest : List TrigEntry)
    (hactive : alookup st.active_events sid = none)
    (h1 : ¬ ((alookup st.trigger_history sid).getD []).length <
      config.trigger_count)
    (h2 : ¬ (((alookup st.trigger_history sid).getD []).filter
      (fun e => now - e.ts ≤ config.trigger_window)).length <
      config.trigger_count)
    (hrec : ((alookup st.trigger_history sid).getD []).filter
      (fun e => now - e.ts ≤ config.trigger_window) = first :: rest) :
    evaluate_trigger st sid config now =
      (some (new_trigger_event sid config now first rest),
       { st with active_events := (aset st.active_events sid
          (new_trigger_event sid config now first rest)) }) := by
  simp only [evaluate_trigger]
  rw [if_neg h1, if_neg h2, hactive]
  dsimp only
  rw [hrec]

/-- C1: for a signal with a threshold config (`trigger_count ≥ 1`), no
currently active event and a chronologically ordered trigger history,
`_evaluate_trigger` at time `now` creates a new event exactly when the
trigger history holds at least `trigger_count` entries with
`now - ts ≤ trigger_window`; the created event is ACTIVE, is inserted
into the active set, and has `event_start_time = now`,
`first_trigger_time` = the timestamp of the oldest qualifying entry,
`severity` = the severity of the most recent qualifying entry, and
`event_id = signal_id ++ "_" ++ unix seconds of first_trigger_time`.
In particular, with exactly `trigger_count - 1` qualifying entries no
event is created. -/
theorem c1_trigger_new_event (st : WarnState) (sid : String)
    (config : ThresholdConfig) (now : ℚ)
    (hN : 0 < config.trigger_count)
    (hactive : alookup st.active_events sid = none)
    (hsorted : List.Pairwise (fun a b => a.ts ≤ b.ts)
      ((alookup st.trigger_history sid).getD [])) :
    ((evaluate_trigger st sid config now).1.isSome = true ↔
      config.trigger_count ≤
        (((alookup st.trigger_history sid).getD []).filter
          (fun e => now - e.ts ≤ config.trigger_window)).length) ∧
    ∀ ev, (evaluate_trigger st sid config now).1 = some ev →
      ev.state = WarningState.active ∧
      ev.event_start_time = some now ∧
      alookup (evaluate_trigger st sid config now).2.active_events sid =
        some ev ∧
      ∃ first rest,
        ((alookup st.trigger_history sid).getD []).filter
          (fun e => now - e.ts ≤ config.trigger_window) = first :: rest ∧
        ev.first_trigger_time = first.ts ∧
        (∀ e ∈ ((alookup st.trigger_history sid).getD []).filter
          (fun e => now - e.ts ≤ config.trigger_window), first.ts ≤ e.ts) ∧
        ev.severity =
          ((first :: rest).getLast (List.cons_ne_nil first rest)).viol.severity ∧
        ev.event_id = sid ++ "_" ++ toString (int_trunc first.ts) := by
  have hflt := List.length_filter_le
    (fun e => now - e.ts ≤ config.trigger_window)
    ((alookup st.trigger_history sid).getD [])
  constructor
  · constructor
    · intro hs
      simp only [evaluate_trigger] at hs
      split at hs
      · simp at hs
      · split at hs
        · simp at hs
        · rename_i h1 h2
          exact not_lt.mp h2
    · intro hlen
      have h1 : ¬ ((alookup st.trigger_history sid).getD []).length <
          config.trigger_count := by omega
      have h2 : ¬ (((alookup st.trigger_history sid).getD []).filter
          (fun e => now - e.ts ≤ config.trigger_window)).length <
          config.trigger_count := not_lt.mpr hlen
      obtain ⟨first, rest, hrec⟩ :
          ∃ f r, ((alookup st.trigger_history sid).getD []).filter
            (fun e => now - e.ts ≤ config.trigger_window) = f :: r := by
        cases hr : ((alookup st.trigger_history sid).getD []).filter
            (fun e => now - e.ts ≤ config.trigger_window) with
        | nil => rw [hr] at hlen; simp at hlen; omega
        | cons a l => exact ⟨a, l, rfl⟩
      rw [evaluate_trigger_creates st sid config now first rest hactive
        h1 h2 hrec]
      simp
  · intro ev hev
    have hs : (evaluate_trigger st sid config now).1.isSome = true := by
      rw [hev]; rfl
    have hlen : config.trigger_count ≤
        (((alookup st.trigger_history sid).getD []).filter
          (fun e => now - e.ts ≤ config.trigger_window)).length := by
      simp only [evaluate_trigger] at hs
      split at hs
      · simp at hs
      · split at hs
        · simp at hs
        · rename_i h1 h2
          exact not_lt.mp h2
    have h1 : ¬ ((alookup st.trigger_history sid).getD []).length <
        config.trigger_count := by omega
    have h2 : ¬ (((alookup st.trigger_history sid).getD []).filter
        (fun e => now - e.ts ≤ config.trigger_window)).length <
        config.trigger_count := not_lt.mpr hlen
    obtain ⟨first, rest, hrec⟩ :
        ∃ f r, ((alookup st.trigger_history sid).getD []).filter
          (fun e => now - e.ts ≤ config.trigger_window) = f :: r := by
      cases hr : ((alookup st.trigger_history sid).getD []).filter
          (fun e => now - e.ts ≤ config.trigger_window) with
      | nil => rw [hr] at hlen; simp at hlen; omega
      | cons a l => exact ⟨a, l, rfl⟩
    have hcreate := evaluate_trigger_creates st sid config now first rest
      hactive h1 h2 hrec
    rw [hcreate] at hev
    dsimp only at hev
    rw [Option.some.injEq] at hev
    subst hev
    have hordered : ∀ e ∈ ((alookup st.trigger_history sid).getD []).filter
        (fun e => now - e.ts ≤ config.trigger_window), first.ts ≤ e.ts := by
      have hp : List.Pairwise (fun a b => a.ts ≤ b.ts)
          (((alookup st.trigger_history sid).getD []).filter
            (fun e => now - e.ts ≤ config.trigger_window)) :=
        hsorted.filter _
      rw [hrec] at hp
      rw [hrec]
      intro e he
      rcases List.mem_cons.mp he with he | he
      · exact he ▸ le_refl _
      · exact (List.pairwise_cons.mp hp).1 e he
    refine ⟨rfl, rfl, ?_, first, rest, hrec, rfl, hordered, ?_, rfl⟩
    · rw [hcreate]
      exact alookup_aset_self _ _ _
    · simp [new_trigger_event]

/-- The threshold config of the C1 witness: `warning_max = 1`,
`trigger_count = 2`, `trigger_window = 5`. -/
def c1_config : ThresholdConfig :=
  { signal_id := "s", signal_type := "frequency", warning_max := some 1,
    trigger_count := 2, trigger_window := 5 }

/-- The layer state of the C1 witness: two violations of `warning_max`
recorded at times `0` and `1`, no active event. -/
def c1_state : WarnState :=
  ⟨[("s", [⟨0, 2, ⟨WarningSeverity.warning, "max", 1, 1⟩⟩,
     ⟨1, 3, ⟨WarningSeverity.warning, "max", 1, 2⟩⟩])], [("s", [])], []⟩

/-- Witness for C1: two qualifying violations of a `warning_max = 1`
config with `trigger_count = 2` inside the window trigger a new event. -/
theorem c1_trigger_new_event_witness :
    0 < c1_config.trigger_count ∧
    alookup c1_state.active_events "s" = none ∧
    List.Pairwise (fun a b => a.ts ≤ b.ts)
      ((alookup c1_state.trigger_history "s").getD []) ∧
    ((evaluate_trigger c1_state "s" c1_config 1).1.isSome = true ↔
      c1_config.trigger_count ≤
        (((alookup c1_state.trigger_history "s").getD []).filter
          (fun e => (1 : ℚ) - e.ts ≤ c1_config.trigger_window)).length) :=
  ⟨by norm_num [c1_config],
   by simp [c1_state, alookup, List.find?],
   by norm_num [c1_state, alookup, List.find?, List.pairwise_cons],
   (c1_trigger_new_event c1_state "s" c1_config 1
      (by norm_num [c1_config])
      (by simp [c1_state, alookup, List.find?])
      (by norm_num [c1_state, alookup, List.find?, List.pairwise_cons])).1⟩

/-- Witness for the amended C3 theorem at `value = 9`,
`critical_min = 10`, `critical_max = 0`. -/
theorem c3_check_threshold_amended_witness :
    crit_violated 9
        { signal_id := "s", signal_type := "voltage",
          critical_min := some 10, critical_max := some 0 } = true ∧
    (∃ v, check_threshold 9
        { signal_id := "s", signal_type := "voltage",
          critical_min := some 10, critical_max := some 0 } = some v ∧
      v.severity = WarningSeverity.critical) :=
  ⟨by norm_num [crit_violated],
   (c3_check_threshold_amended 9
      { signal_id := "s", signal_type := "voltage",
        critical_min := some 10, critical_max := some 0 }).1
     (by norm_num [crit_violated])⟩

/-- The window-selection step of `FFTAnalyzer.analyze`
(`analysis/fft_analyzer.py` lines 48-53): with fewer than `window_size`
samples the input is padded with zeros (`data = list(data) + [0] *
(window_size - len(data))`), with more than `window_size` samples the
most recent window is kept (`data = data[-window_size:]`). -/
def fft_analyze_window (window_size : ℕ) (data : List ℚ) : List ℚ :=
  if data.length < window_size then
    data ++ List.replicate (window_size - data.length) 0
  else if data.length > window_size then
    data.drop (data.length - window_size)
  else data

/-- C5 counterexample: with `window_size = 2` and the single sample `[1]`,
the analyzed window is `[1, 0]` — the zeros are appended AFTER the data
(right padding), not prepended before it as the claim states. -/
theorem c5_counterexample :
    fft_analyze_window 2 [1] = [1, 0] ∧
    fft_analyze_window 2 [1] ≠ List.replicate 1 (0 : ℚ) ++ [1] := by
  constructor
  · norm_num [fft_analyze_window]
  · norm_num [fft_analyze_window]

/-- C5 (amended): the analyzed window always has length `window_size`;
with fewer than `window_size` samples it is the input zero-padded on the
RIGHT (zeros after the data); with at least `window_size` samples it is
the most recent `window_size` samples (a suffix of the input). -/
theorem c5_fft_window_amended (W : ℕ) (data : List ℚ) :
    (fft_analyze_window W data).length = W ∧
    (data.length < W →
      fft_analyze_window W data =
        data ++ List.replicate (W - data.length) 0) ∧
    (W ≤ data.length →
      fft_analyze_window W data = data.drop (data.length - W) ∧
      fft_analyze_window W data <:+ data) := by
  refine ⟨?_, ?_, ?_⟩
  · unfold fft_analyze_window
    split_ifs with h1 h2
    · simp only [List.length_append, List.length_replicate]
      omega
    · simp only [List.length_drop]
      omega
    · omega
  · intro h
    unfold fft_analyze_window
    rw [if_pos h]
  · intro h
    unfold fft_analyze_window
    rcases lt_or_eq_of_le h with h2 | h2
    · rw [if_neg (by omega), if_pos h2]
      exact ⟨rfl, List.drop_suffix _ _⟩
    · rw [if_neg (by omega), if_neg (by omega)]
      refine ⟨?_, List.suffix_refl _⟩
      rw [← h2]
      simp

/-- Witness for the amended C5 theorem: both branches at `W = 2`, with a
short input `[1]` and a long input `[3, 4, 5]`. -/
theorem c5_fft_window_amended_witness :
    ([(1 : ℚ)].length < 2 ∧
      fft_analyze_window 2 [(1 : ℚ)] = [1] ++ List.replicate 1 0) ∧
    (2 ≤ [(3 : ℚ), 4, 5].length ∧
      fft_analyze_window 2 [(3 : ℚ), 4, 5] = [(3 : ℚ), 4, 5].drop 1 ∧
      fft_analyze_window 2 [(3 : ℚ), 4, 5] <:+ [(3 : ℚ), 4, 5]) :=
  ⟨⟨by norm_num, by
      have h := (c5_fft_window_amended 2 [(1 : ℚ)]).2.1 (by norm_num)
      simpa using h⟩,
   ⟨by norm_num, by
      have h := (c5_fft_window_amended 2 [(3 : ℚ), 4, 5]).2.2 (by norm_num)
      simpa using h⟩⟩

/-- The constructor parameters of `OscillationDetector`
(`analysis/oscillation_detector.py`), defaults as in the source. -/
structure OscConfig where
  sample_rate : ℚ := 20
  freq_min : ℚ := 0.2
  freq_max : ℚ := 2.5
  window_size : ℕ := 512
  threshold_multiplier : ℚ := 3
  deriving DecidableEq

/-- `np.mean` over our rational model (`sum / length`; the junk value on
`[]` is `0` by rational division-by-zero, where numpy would yield NaN). -/
def qmean (xs : List ℚ) : ℚ := xs.sum / xs.length

/-- Lines 76-77 of `OscillationDetector.detect`: the most recent
`window_size` samples with their mean removed. -/
def osc_signal_window (cfg : OscConfig) (data : List ℚ) : List ℚ :=
  let w := data.drop (data.length - cfg.window_size)
  let m := qmean w
  w.map (fun x => x - m)

/-- Line 86: `oscillation_power = np.mean(filtered ** 2)`. -/
def osc_power (filtered : List ℚ) : ℚ :=
  qmean (filtered.map (fun x => x * x))

/-- Line 87: `baseline_power = np.mean(signal_data ** 2) -
oscillation_power` — computed as a plain difference, with no clamping. -/
def osc_baseline_power (cfg : OscConfig) (data filtered : List ℚ) : ℚ :=
  qmean ((osc_signal_window cfg data).map (fun x => x * x)) -
    osc_power filtered

/-- Line 88: `threshold = baseline_power * self.threshold_multiplier`. -/
def osc_threshold (cfg : OscConfig) (data filtered : List ℚ) : ℚ :=
  osc_baseline_power cfg data filtered * cfg.threshold_multiplier

/-- Line 89: `oscillation_detected = oscillation_power > threshold`. -/
def osc_detected (cfg : OscConfig) (data filtered : List ℚ) : Bool :=
  decide (osc_power filtered > osc_threshold cfg data filtered)

/-- Lines 92-106 of `OscillationDetector.detect`: the dominant in-band
frequency and magnitude.  `frequencies = fftfreq(len(filtered),
1/sample_rate)[:n]` is the arithmetic ramp `k * sample_rate /
len(filtered)`; the FFT magnitude spectrum `magnitudes =
np.abs(fft(filtered * hamming)[:n])` is a parameter of the embedding
(first `n = len(filtered) / 2` bins).  `np.argmax` keeps the first
maximum, as does the fold with a strict comparison. -/
def osc_dominant (cfg : OscConfig) (filtered magnitudes : List ℚ) :
    ℚ × ℚ :=
  let n := filtered.length / 2
  let freqs := (List.range n).map
    (fun k => (k : ℚ) * cfg.sample_rate / filtered.length)
  let pairs := freqs.zip magnitudes
  let band := pairs.filter
    (fun p => cfg.freq_min ≤ p.1 ∧ p.1 ≤ cfg.freq_max)
  match band with
  | [] => (0, 0)
  | p :: ps => ps.foldl (fun best q => if q.2 > best.2 then q else best) p

/-- Lines 108-112: classification of the oscillation type from the
detection flag and the dominant in-band frequency. -/
def osc_type (detected : Bool) (freq : ℚ) : String :=
  if detected then (if freq < 0.8 then "inter-area" else "local")
  else "none"

/-- The slope coefficient of `np.polyfit(x, y, 1)` with
`x = 0, 1, ..., len(y)-1`: the exact least-squares slope. -/
noncomputable def polyfit_slope (ys : List ℝ) : ℝ :=
  let n : ℝ := ys.length
  let xs : List ℝ := (List.range ys.length).map (fun i => (i : ℝ))
  let sx := xs.sum
  let sy := ys.sum
  let sxy := ((xs.zip ys).map (fun p => p.1 * p.2)).sum
  let sxx := (xs.map (fun x => x * x)).sum
  (n * sxy - sx * sy) / (n * sxx - sx * sx)

/-- `OscillationDetector._estimate_damping` (lines 134-151).  The length
of the Hilbert envelope and the peak values selected by scipy
`find_peaks(envelope, distance=5)` are parameters of the embedding;
the rest of the computation (`log(peak + 1e-10)` regression slope,
`d / sqrt(d^2 + (2*pi)^2)`, `np.clip(..., 0.0, 1.0)`) is exact. -/
noncomputable def estimate_damping (envelope_len : ℕ) (peaks : List ℝ) :
    ℝ :=
  if envelope_len < 10 then 0
  else if peaks.length < 2 then 0
  else
    let log_peaks := peaks.map (fun p => Real.log (p + 1 / 10 ^ 10))
    let decay_rate := -(polyfit_slope log_peaks)
    min 1 (max 0 (decay_rate / Real.sqrt (decay_rate ^ 2 +
      (2 * Real.pi) ^ 2)))

/-- The result dictionary of `OscillationDetector.detect` (lines
116-129), restricted to the scalar analysis fields (the echoed inputs
`filtered_signal`, `envelope`, `timestamp`, `freq_range` are omitted). -/
structure OscillationResult where
  oscillation_detected : Bool
  oscillation_frequency : ℚ
  oscillation_magnitude : ℚ
  oscillation_type : String
  oscillation_power : ℚ
  baseline_power : ℚ
  threshold : ℚ
  damping_ratio : ℝ

/-- The analysis body of `OscillationDetector.detect` (lines 76-129),
after the insufficient-data guard.  The outputs of the scipy bandpass
filter (`filtered`), of the FFT magnitude computation (`magnitudes`) and
of the Hilbert envelope peak finding (`envelope_len`, `peaks`) are
parameters of the embedding. -/
noncomputable def oscillation_detect_core (cfg : OscConfig)
    (data filtered magnitudes : List ℚ) (envelope_len : ℕ)
    (peaks : List ℝ) : OscillationResult :=
  { oscillation_detected := osc_detected cfg data filtered,
    oscillation_frequency := (osc_dominant cfg filtered magnitudes).1,
    oscillation_magnitude := (osc_dominant cfg filtered magnitudes).2,
    oscillation_type := osc_type (osc_detected cfg data filtered)
      (osc_dominant cfg filtered magnitudes).1,
    oscillation_power := osc_power filtered,
    baseline_power := osc_baseline_power cfg data filtered,
    threshold := osc_threshold cfg data filtered,
    damping_ratio := estimate_damping envelope_len peaks }

/-- `OscillationDetector.detect` (lines 68-129): `none` models the
insufficient-data error dictionary of lines 69-74. -/
noncomputable def oscillation_detect (cfg : OscConfig)
    (data filtered magnitudes : List ℚ) (envelope_len : ℕ)
    (peaks : List ℝ) : Option OscillationResult :=
  if data.length < cfg.window_size then none
  else some (oscillation_detect_core cfg data filtered magnitudes
    envelope_len peaks)

/-- C6 counterexample: with `window_size = 2`, input window `[0, 2]`
(de-meaned to `[-1, 1]`, mean square `1`) and a bandpass output of mean
square `4`, the reported `baseline_power` is `1 - 4 = -3 < 0`: the
difference is NOT clamped at `0`, so the reported value is negative,
contradicting both the claimed clamping and the claimed nonnegativity.
(The filter output is a parameter of the embedding; the spec itself
notes in its design-notes section that the source does not clamp and
that the difference can go negative for noisy input.) -/
theorem c6_counterexample :
    (oscillation_detect { window_size := 2 } [0, 2] [2, 2] [] 0 []).isSome
      = true ∧
    (oscillation_detect_core { window_size := 2 } [0, 2] [2, 2] [] 0
      []).baseline_power = -3 ∧
    ¬ (0 : ℚ) ≤ (oscillation_detect_core { window_size := 2 } [0, 2]
      [2, 2] [] 0 []).baseline_power := by
  refine ⟨?_, ?_, ?_⟩
  · norm_num [oscillation_detect]
  · norm_num [oscillation_detect_core, osc_baseline_power,
      osc_signal_window, osc_power, qmean]
  · norm_num [oscillation_detect_core, osc_baseline_power,
      osc_signal_window, osc_power, qmean]

/-- C6 (amended): for every window accepted by the oscillation detector,
the reported `baseline_power` is exactly
`mean(de-meaned signal²) - oscillation_power`, with NO clamping at `0`
(it is negative whenever `oscillation_power` exceeds the mean de-meaned
power, as the counterexample shows). -/
theorem c6_baseline_power_amended (cfg : OscConfig)
    (data filtered magnitudes : List ℚ) (envelope_len : ℕ)
    (peaks : List ℝ) :
    (oscillation_detect cfg data filtered magnitudes envelope_len
        peaks).map (fun r => r.baseline_power) =
      (oscillation_detect cfg data filtered magnitudes envelope_len
        peaks).map (fun r =>
          qmean ((osc_signal_window cfg data).map (fun x => x * x)) -
            r.oscillation_power) := by
  unfold oscillation_detect
  split_ifs
  · rfl
  · rfl

/-- C7: every oscillation analysis result has `damping_ratio ∈ [0, 1]`;
when `oscillation_detected` is true the classified type is
`"inter-area"` exactly if the dominant in-band frequency is below
`0.8` Hz and `"local"` otherwise; when not detected the type is
`"none"`. -/
theorem c7_oscillation_result_invariants (cfg : OscConfig)
    (data filtered magnitudes : List ℚ) (envelope_len : ℕ)
    (peaks : List ℝ) :
    (0 ≤ (oscillation_detect_core cfg data filtered magnitudes
        envelope_len peaks).damping_ratio ∧
      (oscillation_detect_core cfg data filtered magnitudes
        envelope_len peaks).damping_ratio ≤ 1) ∧
    ((oscillation_detect_core cfg data filtered magnitudes
        envelope_len peaks).oscillation_detected = true →
      (oscillation_detect_core cfg data filtered magnitudes
        envelope_len peaks).oscillation_type =
        (if (oscillation_detect_core cfg data filtered magnitudes
            envelope_len peaks).oscillation_frequency < 0.8 then
          "inter-area" else "local")) ∧
    ((oscillation_detect_core cfg data filtered magnitudes
        envelope_len peaks).oscillation_detected = false →
      (oscillation_detect_core cfg data filtered magnitudes
        envelope_len peaks).oscillation_type = "none") := by
  refine ⟨?_, ?_, ?_⟩
  · show 0 ≤ estimate_damping envelope_len peaks ∧
      estimate_damping envelope_len peaks ≤ 1
    unfold estimate_damping
    split_ifs
    · norm_num
    · norm_num
    · constructor
      · exact le_min (by norm_num) (le_max_left 0 _)
      · exact min_le_left _ _
  · intro h
    have hd : osc_detected cfg data filtered = true := h
    show osc_type (osc_detected cfg data filtered)
      (osc_dominant cfg filtered magnitudes).1 = _
    rw [hd]
    unfold osc_type
    rfl
  · intro h
    have hd : osc_detected cfg data filtered = false := h
    show osc_type (osc_detected cfg data filtered)
      (osc_dominant cfg filtered magnitudes).1 = _
    rw [hd]
    rfl

/-- Witness for C7 at a concrete input: empty filter output gives
`oscillation_power = 0 ≤ threshold`, hence not detected, and the
classified type is `"none"`, with the damping ratio equal to `0`. -/
theorem c7_oscillation_result_invariants_witness :
    (oscillation_detect_core { window_size := 2 } [0, 2] [] [] 0
      []).oscillation_detected = false ∧
    (oscillation_detect_core { window_size := 2 } [0, 2] [] [] 0
      []).oscillation_type = "none" :=
  have h : (oscillation_detect_core { window_size := 2 } [0, 2] [] [] 0
      []).oscillation_detected = false := by
    norm_num [oscillation_detect_core, osc_detected, osc_power,
      osc_threshold, osc_baseline_power, osc_signal_window, qmean]
  ⟨h, (c7_oscillation_result_invariants { window_size := 2 } [0, 2] [] []
      0 []).2.2 h⟩

/-- Insertion into a sorted list of rationals (stable, ascending). -/
def insert_sorted (x : ℚ) : List ℚ → List ℚ
  | [] => [x]
  | y :: ys => if x ≤ y then x :: y :: ys else y :: insert_sorted x ys

/-- Ascending sort of a list of rationals (insertion sort). -/
def sort_rat (xs : List ℚ) : List ℚ := xs.foldr insert_sorted []

/-- `np.median`: middle element of the sorted values for odd length,
mean of the two middle elements for even length (junk value `0` on `[]`,
unreachable in the source which requires at least 10 samples). -/
def median (xs : List ℚ) : ℚ :=
  let s := sort_rat xs
  let n := xs.length
  if n % 2 = 1 then s.getD (n / 2) 0
  else (s.getD (n / 2 - 1) 0 + s.getD (n / 2) 0) / 2

/-- The result dictionary of `FaultDetector.detect`
(`analysis/fault_detector.py` lines 142-154). -/
structure FaultResult where
  fault_detected : Bool
  fault_type : String
  signal_type : String
  value : ℚ
  baseline : ℚ
  deviation : ℚ
  deviation_ratio : ℚ
  rate_of_change : ℚ
  severity : String
  fault_active : Bool
  timestamp : String
  deriving DecidableEq

/-- The mutable state of a `FaultDetector`: the baseline deque, the last
value, the fault-active flag and the fault start time. -/
structure FaultState where
  baseline_buffer : List ℚ
  last_value : Option ℚ
  fault_active : Bool
  fault_start_time : Option String
  deriving DecidableEq

/-- `FaultDetector.detect` (`analysis/fault_detector.py` lines 43-156).
The detector parameters `voltage_threshold`, `frequency_threshold`,
`rate_threshold`, `buffer_size` are the constructor arguments (defaults
`0.05`, `0.1`, `0.5`, `100`).  Returns the optional result (`none`
models the "Building baseline" early return of lines 71-78) and the
successor state. -/
def fault_detect (voltage_threshold frequency_threshold rate_threshold :
    ℚ) (buffer_size : ℕ) (st : FaultState) (value : ℚ)
    (timestamp : String) (signal_type : String)
    (baseline? : Option ℚ) : Option FaultResult × FaultState :=
  let buffer := deque_append buffer_size st.baseline_buffer value
  let baselineR : Option ℚ :=
    match baseline? with
    | some b => some b
    | none => if 10 ≤ buffer.length then some (median buffer) else none
  match baselineR with
  | none =>
      (none,
       { st with baseline_buffer := buffer, last_value := some value })
  | some baseline =>
      let deviation := value - baseline
      let deviation_ratio :=
        if baseline ≠ 0 then |deviation / baseline| else 0
      let rate_of_change :=
        match st.last_value with
        | some lv => if baseline ≠ 0 then |value - lv| / baseline else 0
        | none => 0
      let cls : Bool × String × String :=
        if signal_type = "voltage" ∨ signal_type = "current" then
          if deviation_ratio > voltage_threshold then
            (true,
             if deviation > 0 then
               (if signal_type = "voltage" then "swell"
                else "overcurrent")
             else
               (if signal_type = "voltage" then "sag"
                else "undercurrent"),
             if deviation_ratio > 0.2 then "critical"
             else if deviation_ratio > 0.1 then "high"
             else if deviation_ratio > 0.05 then "medium"
             else "low")
          else (false, "none", "normal")
        else if signal_type = "frequency" then
          if |deviation| > frequency_threshold then
            (true, "frequency_deviation",
             if |deviation| > 0.5 then "critical"
             else if |deviation| > 0.3 then "high"
             else if |deviation| > 0.15 then "medium"
             else "low")
          else (false, "none", "normal")
        else (false, "none", "normal")
      let cls₂ : Bool × String × String :=
        if rate_of_change > rate_threshold then
          (true,
           if cls.2.1 = "none" then "transient"
           else cls.2.1 ++ "_transient",
           "high")
        else cls
      let fault_active :=
        if cls₂.1 && !st.fault_active then true
        else if !cls₂.1 && st.fault_active then false
        else st.fault_active
      let fault_start :=
        if cls₂.1 && !st.fault_active then some timestamp
        else if !cls₂.1 && st.fault_active then none
        else st.fault_start_time
      (some { fault_detected := cls₂.1,
              fault_type := cls₂.2.1,
              signal_type := signal_type,
              value := value,
              baseline := baseline,
              deviation := deviation,
              deviation_ratio := deviation_ratio,
              rate_of_change := rate_of_change,
              severity := cls₂.2.2,
              fault_active := fault_active,
              timestamp := timestamp },
       { baseline_buffer := buffer, last_value := some value,
         fault_active := fault_active,
         fault_start_time := fault_start })

/-- C8 counterexample: with the established baseline `-1`, `value = 0`
and `last_value = 1`, the source computes `rate_of_change =
abs(0 - 1) / (-1) = -1`, a NEGATIVE value — it divides by the signed
`baseline`, not by `abs(baseline)` as the claim states (which would give
`+1`). -/
theorem c8_counterexample :
    ((fault_detect 0.05 0.1 0.5 100 ⟨[], some 1, false, none⟩ 0 "t"
        "voltage" (some (-1))).1.map (fun r => r.rate_of_change)) =
      some (-1) ∧
    ¬ (0 : ℚ) ≤ (-1 : ℚ) := by
  constructor
  · norm_num [fault_detect, deque_append]
  · norm_num

/-- C8 (amended): with an established baseline `b`, the reported
`deviation_ratio` equals `|deviation / b|` (`0` when `b = 0`) and is
always nonnegative; but the reported `rate_of_change` equals
`|value - last_value| / b` with the SIGNED baseline in the denominator
(`0` when `b = 0` or without a previous value), so it is negative
whenever `b < 0` and `value ≠ last_value`. -/
theorem c8_fault_ratios_amended (vt ft rt : ℚ) (bs : ℕ)
    (st : FaultState) (value : ℚ) (ts sig : String) (b : ℚ) :
    ((fault_detect vt ft rt bs st value ts sig (some b)).1.map
      (fun r => r.deviation_ratio)) =
      some (if b ≠ 0 then |(value - b) / b| else 0) ∧
    (0 : ℚ) ≤ (if b ≠ 0 then |(value - b) / b| else 0) ∧
    ((fault_detect vt ft rt bs st value ts sig (some b)).1.map
      (fun r => r.rate_of_change)) =
      some (match st.last_value with
            | some lv => if b ≠ 0 then |value - lv| / b else 0
            | none => 0) := by
  refine ⟨rfl, ?_, rfl⟩
  split_ifs
  · exact abs_nonneg _
  · exact le_refl 0

/-- C10: whenever the reported `rate_of_change` exceeds the rate
threshold, the fault detector reports severity exactly `"high"` (and a
detected fault), unconditionally overwriting the severity computed from
the deviation classification — including downgrading `"critical"`, as
the witness shows. -/
theorem c10_transient_severity (vt ft rt : ℚ) (bs : ℕ) (st : FaultState)
    (value : ℚ) (ts sig : String) (baseline? : Option ℚ)
    (res : FaultResult)
    (h : (fault_detect vt ft rt bs st value ts sig baseline?).1 =
      some res)
    (hrate : res.rate_of_change > rt) :
    res.severity = "high" ∧ res.fault_detected = true := by
  simp only [fault_detect] at h
  split at h
  · exact absurd h (by simp)
  · dsimp only at h
    rw [Option.some.injEq] at h
    subst h
    dsimp only at hrate ⊢
    rw [if_pos hrate]
    exact ⟨rfl, rfl⟩

/-- The fault result of the C10 witness. -/
def c10_result : FaultResult :=
  { fault_detected := true, fault_type := "swell_transient",
    signal_type := "voltage", value := 2, baseline := 1, deviation := 1,
    deviation_ratio := 1, rate_of_change := 2, severity := "high",
    fault_active := true, timestamp := "t" }

/-- Witness for C10: `value = 2` against baseline `1` gives
`deviation_ratio = 1 > 0.2` (severity `"critical"` from the deviation
classification), but `rate_of_change = 2 > 0.5` overwrites the severity
to `"high"`. -/
theorem c10_transient_severity_witness :
    (fault_detect 0.05 0.1 0.5 100 ⟨[], some 0, false, none⟩ 2 "t"
        "voltage" (some 1)).1 = some c10_result ∧
    c10_result.rate_of_change > (0.5 : ℚ) ∧
    c10_result.severity = "high" :=
  have h : (fault_detect 0.05 0.1 0.5 100 ⟨[], some 0, false, none⟩ 2
      "t" "voltage" (some 1)).1 = some c10_result := by
    norm_num [fault_detect, deque_append, c10_result]
    decide
  ⟨h, by norm_num [c10_result],
   (c10_transient_severity 0.05 0.1 0.5 100 ⟨[], some 0, false, none⟩ 2
      "t" "voltage" (some 1) c10_result h
      (by norm_num [c10_result])).1⟩
